import Mathlib

/-!
# wmderland: the bootstrap and crash-recovery supervisor (src/main.cc)

A shallow embedding of `main` of src/main.cc.  Every call that `main` makes to
a collaborator (the segv handler installer, the logging macros, the window
manager singleton, the snapshot store, libc) is recorded as an `Effect` in a
trace, in program order.  What the collaborators answer is fixed by a `World`:
whether the display can be opened, which files exist, how `Snapshot::Load` and
`WindowManager::Run` end, and how `execl` ends.

Collaborator calls other than `Snapshot::Load` and `WindowManager::Run` are
taken to return normally; `Load` and `Run` may return or throw.
-/

namespace Wmderland

/-! ## Data model -/

/-- The three handler types named by the catch clauses of `main`, in the
order `std::bad_alloc`, `Snapshot::SnapshotLoadError`, `std::exception`. -/
inductive Handler where
  | bad_alloc
  | SnapshotLoadError
  | exception
  deriving DecidableEq, Repr

/-- The dynamic type family of a thrown object, with the text of `what()`
where the object has one. -/
inductive Thrown where
  /-- A `std::bad_alloc` (or a class derived from it). -/
  | badAlloc (what : String)
  /-- A `wmderland::Snapshot::SnapshotLoadError`. -/
  | snapshotLoadError (what : String)
  /-- Any other object whose class derives from `std::exception`. -/
  | stdException (what : String)
  /-- An object whose class does not derive from `std::exception`. -/
  | foreign
  deriving DecidableEq, Repr

/-- The text returned by `ex.what()`. -/
def Thrown.what : Thrown → String
  | .badAlloc s => s
  | .snapshotLoadError s => s
  | .stdException s => s
  | .foreign => ""

/-- Whether a handler `catch (const H&)` matches the thrown object.
`std::bad_alloc` derives from `std::exception`; so does `SnapshotLoadError`
(snapshot.h is not part of the sources: the catch clause calls `what()` on it
and stands before the clause for `std::exception`). -/
def Thrown.isA : Thrown → Handler → Bool
  | .badAlloc _, .bad_alloc => true
  | .badAlloc _, .exception => true
  | .snapshotLoadError _, .SnapshotLoadError => true
  | .snapshotLoadError _, .exception => true
  | .stdException _, .exception => true
  | _, _ => false

/-- How a call that may throw ends. -/
inductive Outcome where
  | returns
  | raises (t : Thrown)
  deriving DecidableEq, Repr

/-- How `execl` ends: the process image is replaced and the call never
returns, or the call fails, returns -1 and sets `errno` (execl(3) returns
only if an error has occurred). `strerror` is the text of `strerror(errno)`. -/
inductive ExeclOutcome where
  | replaced
  | failed (strerror : String)
  deriving DecidableEq, Repr

/-- The value `execl` returns to the caller, `none` when it does not return. -/
def ExeclOutcome.ret : ExeclOutcome → Option Int
  | .replaced => none
  | .failed _ => some (-1)

/-- The text of `strerror(errno)` after `execl` has returned. -/
def ExeclOutcome.strerror : ExeclOutcome → String
  | .replaced => ""
  | .failed s => s

/-- How a call of `rename(old, new)` on an existing `old` ends (rename(2)):
the entry is moved and 0 is returned; or both names already refer to the same
file, nothing is done and 0 is returned; or the call fails (the target is a
directory, the new name is too long, permission is denied, ...), nothing is
changed and -1 is returned. `errno` names the error. -/
inductive RenameOutcome where
  | moved
  | sameFile
  | failed (errno : String)
  deriving DecidableEq, Repr

/-- The argument vector of the process: `args[0]` and `args[1..argc-1]`. -/
structure Argv where
  prog : String
  rest : List String
  deriving DecidableEq, Repr

/-- The whole vector `args[0..argc-1]`. -/
def Argv.toList (a : Argv) : List String := a.prog :: a.rest

/-- The value of `argc`. -/
def Argv.argc (a : Argv) : Nat := a.rest.length + 1

/-- The macros of config.h that `version` pastes together. config.h is
generated at build time and is not part of the sources. -/
structure Config where
  WIN_MGR_NAME : String
  VERSION : String
  deriving DecidableEq, Repr

/-- Severity argument of `WM_LOG`. -/
inductive Severity where
  | INFO
  | ERROR
  deriving DecidableEq, Repr

/-- Urgency argument of `sys_utils::NotifySend`. -/
inductive Urgency where
  | NOTIFY_SEND_CRITICAL
  deriving DecidableEq, Repr

/-- One observable action of `main`, in the order the program performs it. -/
inductive Effect where
  /-- Text written to `std::cout`. -/
  | stdout (s : String)
  /-- Text written to the error stream (`std::cerr`, `fputs`, `perror`). -/
  | stderr (s : String)
  /-- The call `segv::InstallHandler(&segv::Handle)`. -/
  | installHandler
  /-- The macro `WM_INIT_LOGGING(args[0])`. -/
  | initLogging (prog : String)
  /-- The call `WindowManager::GetInstance()` and whether it gave a handle. -/
  | getInstance (ok : Bool)
  /-- The macro `WM_LOG(severity, text)` is invoked with these arguments
  (config.h.in, which defines the macro, is not part of the sources). -/
  | log (sev : Severity) (msg : String)
  /-- The call `Snapshot::FileExists()` and its answer. -/
  | fileExists (answer : Bool)
  /-- The call `Snapshot::Load()`. -/
  | load
  /-- The call `WindowManager::Run()`. -/
  | run
  /-- The call `sys_utils::NotifySend(text, urgency)`. -/
  | notifySend (msg : String) (u : Urgency)
  /-- The call `Snapshot::Save()`. -/
  | save
  /-- The call `rename(old, new)`. -/
  | rename (old new : String)
  /-- The call `execl(path, arg0, ..., nullptr)` with its argument list. -/
  | execl (path : String) (argv : List String)
  deriving DecidableEq, Repr

/-- How the process ends: `main` returns a status, or the process image has
been replaced by a new program started with `argv`. -/
inductive Result where
  | exited (code : Int)
  | replaced (path : String) (argv : List String)
  deriving DecidableEq, Repr

/-- What the surroundings of the process answer during one run. -/
structure World where
  /-- Whether `WindowManager::GetInstance()` can open the display. -/
  display : Bool
  /-- The value of `Snapshot::filename()`. -/
  filename : String
  /-- The paths that exist when the process starts. -/
  files : List String
  /-- How `Snapshot::Load()` ends if it is called. -/
  load : Outcome
  /-- How `WindowManager::Run()` ends if it is called. -/
  run : Outcome
  /-- How `execl` ends if it is called. -/
  execl : ExeclOutcome
  /-- How `rename` ends if it is called on an existing path. -/
  rename : RenameOutcome
  deriving DecidableEq, Repr

/-! ## Constants of main.cc and of stdlib.h -/

def EXIT_SUCCESS : Int := 0

def EXIT_FAILURE : Int := 1

def wm_start_failed_msg : String := "Failed to open display to X server."

def wm_execl_failed_msg : String := "execl() failed"

/-- The text `std::endl` appends. -/
def endl : String := "\n"

/-- The banner of `version()`. -/
def version (c : Config) : String :=
  c.WIN_MGR_NAME ++ " " ++ c.VERSION ++ "\n" ++
  "Copyright (C) 2018-2019 Marco Wang <m.aesophor@gmail.com>\n" ++
  "This is free software, see the source for copying conditions. There is No\n" ++
  "warranty; not even for MERCHANTABILITY or FITNESS FOR A PARTICULAR PURPOSE"

/-! ## Collaborators -/

/-- Modelled from the spec: `Snapshot::FileExists` (snapshot.cc is not part of
the sources) answers whether a snapshot record exists on durable storage at the
path `filename()`. -/
def FileExists (w : World) : Bool := decide (w.filename ∈ w.files)

/-- The libc call `rename(old, new)` on a set of paths: the value returned and
the paths that exist afterwards. When `old` does not exist the call fails
(ENOENT). Otherwise the system decides how it ends: only when the entry is
moved does `old` stop existing (and `new` exists, replacing what was there);
in every other case the paths are left as they were. -/
def rename (o : RenameOutcome) (old new : String) (files : List String) :
    Int × List String :=
  if old ∈ files then
    match o with
    | .moved => (0, new :: files.filter (fun p => p ≠ old))
    | .sameFile => (0, files)
    | .failed _ => (-1, files)
  else (-1, files)

/-- Modelled from the spec: `Snapshot::Save` (snapshot.cc is not part of the
sources) persists the state to the snapshot file at `filename()`, overwriting
the prior snapshot file at the same path. -/
def Save (filename : String) (files : List String) : List String :=
  if filename ∈ files then files else filename :: files

/-- The paths that exist after the file effects of a trace have happened in
the world `w`. The value `rename` returns is dropped, as `main` drops it. -/
def filesAfter (w : World) : List Effect → List String → List String
  | [], files => files
  | .rename old new :: es, files => filesAfter w es (rename w.rename old new files).2
  | .save :: es, files => filesAfter w es (Save w.filename files)
  | _ :: es, files => filesAfter w es files

/-! ## main -/

/-- The condition of the first `if` of `main`:
`argc > 1 && (!strcmp(args[1], "-v") || !strcmp(args[1], "--version"))`. -/
def versionRequested (a : Argv) : Bool :=
  decide (a.argc > 1) && (a.rest.head? == some "-v" || a.rest.head? == some "--version")

/-- The body of the `try` block: the effects performed and the object thrown
out of it, `none` when the block runs to its end. -/
def tryBlock (w : World) : List Effect × Option Thrown :=
  if FileExists w then
    match w.load with
    | .raises t => ([.fileExists true, .load], some t)
    | .returns =>
      match w.run with
      | .raises t => ([.fileExists true, .load, .run], some t)
      | .returns => ([.fileExists true, .load, .run], none)
  else
    match w.run with
    | .raises t => ([.fileExists false, .run], some t)
    | .returns => ([.fileExists false, .run], none)

/-- The catch clauses of `main`, tried in source order on the thrown object. -/
def handlers (a : Argv) (w : World) (t : Thrown) : List Effect × Result :=
  if t.isA .bad_alloc then
    ([.stderr "Out of memory\n"], .exited EXIT_FAILURE)
  else if t.isA .SnapshotLoadError then
    ([.log .ERROR t.what,
      .stderr (t.what ++ endl),
      .rename w.filename (w.filename ++ ".failed_to_load")],
     .exited EXIT_FAILURE)
  else if t.isA .exception then
    let recover : List Effect :=
      [.log .ERROR t.what,
       .notifySend "An error occurred. Recovering..." .NOTIFY_SEND_CRITICAL,
       .save,
       .execl a.prog [a.prog]]
    match w.execl.ret with
    | none => (recover, .replaced a.prog [a.prog])
    | some r =>
      if r = -1 then
        (recover ++
          [.log .ERROR (wm_execl_failed_msg ++ ": " ++ w.execl.strerror),
           .stderr (wm_execl_failed_msg ++ ": " ++ w.execl.strerror ++ "\n")],
         .exited EXIT_FAILURE)
      else
        (recover, .exited EXIT_SUCCESS)
  else
    ([.log .ERROR "Unknown exception caught!"], .exited EXIT_FAILURE)

/-- The effects of `main` between the version check and the test of the
handle: install the segv handler, initialise logging with `args[0]`, ask for
the window manager instance. -/
def startup (a : Argv) (w : World) : List Effect :=
  [.installHandler, .initLogging a.prog, .getInstance w.display]

/-- The function `main(argc, args)`: the trace of effects and how the process
ends. -/
def main (c : Config) (a : Argv) (w : World) : List Effect × Result :=
  if versionRequested a then
    ([.stdout (version c ++ endl)], .exited EXIT_SUCCESS)
  else
    if !w.display then
      (startup a w ++
        [.log .INFO wm_start_failed_msg, .stderr (wm_start_failed_msg ++ endl)],
       .exited EXIT_FAILURE)
    else
      match tryBlock w with
      | (body, some t) =>
        let h := handlers a w t
        (startup a w ++ body ++ h.1, h.2)
      | (body, none) => (startup a w ++ body, .exited EXIT_SUCCESS)

/-- The effects of a run. -/
def trace (c : Config) (a : Argv) (w : World) : List Effect := (main c a w).1

/-- How a run ends. -/
def result (c : Config) (a : Argv) (w : World) : Result := (main c a w).2

/-- The object the `try` block of `main` throws in a run, `none` when the
block is not entered or runs to its end. -/
def caught (a : Argv) (w : World) : Option Thrown :=
  if versionRequested a then none
  else if !w.display then none
  else (tryBlock w).2

/-- The call `Snapshot::Load()` is made in the `try` block and throws `t`. -/
def LoadRaises (w : World) (t : Thrown) : Prop :=
  FileExists w = true ∧ w.load = .raises t

/-- The call `WindowManager::Run()` is made in the `try` block (the load, if
any, returned) and throws `t`. -/
def RunRaises (w : World) (t : Thrown) : Prop :=
  (FileExists w = true → w.load = .returns) ∧ w.run = .raises t

/-- A generic recoverable error: an object caught by
`catch (const std::exception&)` that is neither a `std::bad_alloc` nor a
`SnapshotLoadError`. -/
def Thrown.generic (t : Thrown) : Prop :=
  t.isA .exception = true ∧ t.isA .bad_alloc = false ∧ t.isA .SnapshotLoadError = false

instance (w : World) (t : Thrown) : Decidable (LoadRaises w t) := by
  unfold LoadRaises; infer_instance

instance (w : World) (t : Thrown) : Decidable (RunRaises w t) := by
  unfold RunRaises; infer_instance

instance (t : Thrown) : Decidable t.generic := by
  unfold Thrown.generic; infer_instance

/-- The effect is a call of `execl`. -/
def Effect.isExecl : Effect → Bool
  | .execl _ _ => true
  | _ => false

/-- The effect is a call of `sys_utils::NotifySend`. -/
def Effect.isNotify : Effect → Bool
  | .notifySend _ _ => true
  | _ => false

/-- The effect is a call of `rename`. -/
def Effect.isRename : Effect → Bool
  | .rename _ _ => true
  | _ => false

/-- The effect writes to the log through `WM_LOG`. -/
def Effect.isLog : Effect → Bool
  | .log _ _ => true
  | _ => false

/-- The effect writes to the error stream. -/
def Effect.isStderr : Effect → Bool
  | .stderr _ => true
  | _ => false

/-- The effect is a call on the snapshot store or a `rename`. -/
def Effect.isSnapshotOp : Effect → Bool
  | .fileExists _ => true
  | .load => true
  | .save => true
  | .rename _ _ => true
  | _ => false

/-- The four effects of the recovery path up to and including `execl`. -/
def recovery (a : Argv) (t : Thrown) : List Effect :=
  [.log .ERROR t.what,
   .notifySend "An error occurred. Recovering..." .NOTIFY_SEND_CRITICAL,
   .save,
   .execl a.prog [a.prog]]

/-! ## Sample runs -/

def sampleConfig : Config := ⟨"Wmderland", "1.0.2"⟩

def wmOnly : Argv := ⟨"wm", []⟩

def wmWithArg : Argv := ⟨"wm", ["--foo"]⟩

/-- No snapshot on disk, the display opens, `Run` throws a generic error with
text X, and `execl` replaces the image. -/
def runFailsWorld : World :=
  ⟨true, "snap", [], .returns, .raises (.stdException "X"), .replaced, .moved⟩

/-- A snapshot on disk, the display opens, `Load` throws a generic error with
text X, and `execl` fails with the text E. -/
def loadFailsWorld : World :=
  ⟨true, "snap", ["snap"], .raises (.stdException "X"), .returns, .failed "E", .moved⟩

/-- A snapshot on disk, the display opens and `Load` throws a
`SnapshotLoadError` with text bad. -/
def corruptSnapshotWorld : World :=
  ⟨true, "snap", ["snap", "other"], .raises (.snapshotLoadError "bad"), .returns, .replaced, .moved⟩

/-- The snapshot `snap` is on disk, `snap.failed_to_load` exists as a directory,
the display opens, `Load` throws a `SnapshotLoadError` with text bad, and
`rename` fails with EISDIR. -/
def renameFailsWorld : World :=
  ⟨true, "snap", ["snap", "snap.failed_to_load"], .raises (.snapshotLoadError "bad"),
   .returns, .replaced, .failed "EISDIR"⟩

/-- No snapshot on disk, the display opens and `Run` throws `std::bad_alloc`. -/
def outOfMemoryWorld : World :=
  ⟨true, "snap", [], .returns, .raises (.badAlloc "std::bad_alloc"), .replaced, .moved⟩

/-- No snapshot on disk, the display opens and `Run` throws an object that is
not a `std::exception`. -/
def unknownFaultWorld : World :=
  ⟨true, "snap", [], .returns, .raises .foreign, .replaced, .moved⟩

/-- A snapshot on disk that loads, the display opens and `Run` returns. -/
def cleanRunWorld : World :=
  ⟨true, "snap", ["snap"], .returns, .returns, .replaced, .moved⟩

/-! ## Helper lemmas -/

theorem generic_iff (t : Thrown) : t.generic ↔ ∃ s, t = .stdException s := by
  cases t <;> simp [Thrown.generic, Thrown.isA]

theorem snapshotLoadError_iff (t : Thrown) :
    t.isA .SnapshotLoadError = true ↔ ∃ s, t = .snapshotLoadError s := by
  cases t <;> simp [Thrown.isA]

theorem bad_alloc_iff (t : Thrown) :
    t.isA .bad_alloc = true ↔ ∃ s, t = .badAlloc s := by
  cases t <;> simp [Thrown.isA]

theorem not_exception_iff (t : Thrown) :
    t.isA .exception = false ↔ t = .foreign := by
  cases t <;> simp [Thrown.isA]

theorem caught_iff (a : Argv) (w : World) (t : Thrown) :
    caught a w = some t ↔
      versionRequested a = false ∧ w.display = true ∧ (LoadRaises w t ∨ RunRaises w t) := by
  unfold caught tryBlock LoadRaises RunRaises
  cases hv : versionRequested a <;> cases hd : w.display <;>
    cases hf : FileExists w <;> cases hl : w.load <;> cases hr : w.run <;> simp

theorem failed_suffix_ne (s : String) : s ++ ".failed_to_load" ≠ s := by
  intro h
  have := congrArg String.length h
  simp [String.length_append] at this
  revert this
  decide

theorem tryBlock_of_loadRaises (w : World) (t : Thrown) (h : LoadRaises w t) :
    tryBlock w = ([.fileExists true, .load], some t) := by
  obtain ⟨hf, hl⟩ := h
  simp [tryBlock, hf, hl]

theorem tryBlock_of_runRaises (w : World) (t : Thrown) (h : RunRaises w t) :
    tryBlock w =
      (if FileExists w then [.fileExists true, .load, .run] else [.fileExists false, .run],
       some t) := by
  obtain ⟨hl, hr⟩ := h
  cases hf : FileExists w
  · simp [tryBlock, hf, hr]
  · simp [tryBlock, hf, hl hf, hr]

theorem main_of_caught (c : Config) (a : Argv) (w : World) (t : Thrown)
    (h : caught a w = some t) :
    main c a w =
      (startup a w ++ (tryBlock w).1 ++ (handlers a w t).1, (handlers a w t).2) := by
  obtain ⟨hv, hd, hf⟩ := (caught_iff a w t).1 h
  rcases hf with hf | hf
  · simp [main, hv, hd, tryBlock_of_loadRaises w t hf, startup]
  · simp [main, hv, hd, tryBlock_of_runRaises w t hf, startup]

/-! ## The version flag (C9) -/

theorem version_text (c : Config) :
    version c =
      c.WIN_MGR_NAME ++ " " ++ c.VERSION ++
        "\nCopyright (C) 2018-2019 Marco Wang <m.aesophor@gmail.com>\nThis is free software, see the source for copying conditions. There is No\nwarranty; not even for MERCHANTABILITY or FITNESS FOR A PARTICULAR PURPOSE" := by
  simp only [version, String.append_assoc]
  rfl

/-- C9: when `args[1]` exists and is exactly `-v` or `--version`, `main` writes
the version banner followed by a newline to standard output and returns 0, and
that is the whole trace: the fault handler is not installed, logging is not
initialised, `GetInstance` is not called, and there is no snapshot operation,
no `Run` and no `execl`. The banner is the name and the version separated by a
blank, then on three further lines the copyright line and the two lines of
the licence notice. -/
theorem version_flag_prints_banner_only (c : Config) (a : Argv) (w : World)
    (h : a.rest.head? = some "-v" ∨ a.rest.head? = some "--version") :
    a.argc > 1 ∧
    main c a w = ([.stdout (version c ++ "\n")], .exited 0) ∧
    main c a w =
      ([.stdout (c.WIN_MGR_NAME ++ " " ++ c.VERSION ++
          "\nCopyright (C) 2018-2019 Marco Wang <m.aesophor@gmail.com>\nThis is free software, see the source for copying conditions. There is No\nwarranty; not even for MERCHANTABILITY or FITNESS FOR A PARTICULAR PURPOSE" ++
          "\n")],
       .exited 0) ∧
    Effect.installHandler ∉ trace c a w ∧
    (∀ p, Effect.initLogging p ∉ trace c a w) ∧
    (∀ b, Effect.getInstance b ∉ trace c a w) ∧
    (∀ e ∈ trace c a w, e.isSnapshotOp = false ∧ e ≠ .run ∧ e.isExecl = false) := by
  have hargc : a.argc > 1 := by
    cases hr : a.rest with
    | nil => simp [hr] at h
    | cons x xs => simp [Argv.argc, hr]
  have hv : versionRequested a = true := by
    rcases h with h | h <;> simp [versionRequested, h, hargc]
  have hm : main c a w = ([.stdout (version c ++ "\n")], .exited 0) := by
    simp [main, hv, endl, EXIT_SUCCESS]
  have hm2 := hm
  rw [version_text] at hm2
  refine ⟨hargc, hm, hm2, ?_, ?_, ?_, ?_⟩ <;>
    simp [trace, hm, Effect.isSnapshotOp, Effect.isExecl]

/-- C9 witness: started as `wm --version` in a world where everything else
would fail; the text written is spelled out in full. -/
theorem version_flag_prints_banner_only_witness :
    main sampleConfig ⟨"wm", ["--version"]⟩
        ⟨false, "snap", ["snap"], .raises .foreign, .raises .foreign, .failed "E", .moved⟩ =
      ([.stdout "Wmderland 1.0.2\nCopyright (C) 2018-2019 Marco Wang <m.aesophor@gmail.com>\nThis is free software, see the source for copying conditions. There is No\nwarranty; not even for MERCHANTABILITY or FITNESS FOR A PARTICULAR PURPOSE\n"],
       .exited 0) :=
  ((version_flag_prints_banner_only sampleConfig ⟨"wm", ["--version"]⟩
    ⟨false, "snap", ["snap"], .raises .foreign, .raises .foreign, .failed "E", .moved⟩
    (Or.inr rfl)).2.2.1).trans rfl

/-! ## Resource acquisition failure (C5) -/

/-- C5: without the version flag, when `GetInstance` yields no handle, `main`
logs `Failed to open display to X server.`, writes the same text and a newline
to the error stream, and returns `EXIT_FAILURE`; `Run`, the snapshot
operations (`FileExists`, `Load`, `Save`, `rename`) and `execl` are never
called. -/
theorem no_display_fails_without_running (c : Config) (a : Argv) (w : World)
    (hv : versionRequested a = false) (hd : w.display = false) :
    trace c a w =
      [.installHandler, .initLogging a.prog, .getInstance false,
       .log .INFO "Failed to open display to X server.",
       .stderr ("Failed to open display to X server." ++ "\n")] ∧
    result c a w = .exited EXIT_FAILURE ∧
    Effect.run ∉ trace c a w ∧
    (∀ e ∈ trace c a w, e.isSnapshotOp = false ∧ e.isExecl = false) := by
  have hm : main c a w =
      ([.installHandler, .initLogging a.prog, .getInstance false,
        .log .INFO "Failed to open display to X server.",
        .stderr ("Failed to open display to X server." ++ "\n")],
       .exited EXIT_FAILURE) := by
    simp [main, hv, hd, wm_start_failed_msg, endl, startup]
  refine ⟨?_, ?_, ?_, ?_⟩ <;>
    simp [trace, result, hm, Effect.isSnapshotOp, Effect.isExecl]

/-- C5 witness: started as `wm` with no display, a snapshot on disk. -/
theorem no_display_fails_without_running_witness :
    result sampleConfig wmOnly ⟨false, "snap", ["snap"], .returns, .returns, .replaced, .moved⟩ =
      .exited EXIT_FAILURE :=
  (no_display_fails_without_running sampleConfig wmOnly
    ⟨false, "snap", ["snap"], .returns, .returns, .replaced, .moved⟩ (by decide) rfl).2.1

/-! ## The recovery path (C1, C2) -/

theorem handlers_generic (a : Argv) (w : World) (s : String) :
    handlers a w (.stdException s) =
      match w.execl with
      | .replaced => (recovery a (.stdException s), .replaced a.prog [a.prog])
      | .failed e =>
        (recovery a (.stdException s) ++
          [.log .ERROR ("execl() failed" ++ ": " ++ e),
           .stderr ("execl() failed" ++ ": " ++ e ++ "\n")],
         .exited EXIT_FAILURE) := by
  cases he : w.execl <;>
    simp [handlers, Thrown.isA, he, ExeclOutcome.ret, ExeclOutcome.strerror, recovery,
      wm_execl_failed_msg]

/-- C1: when the display is acquired and `Load` or `Run` throws a generic
recoverable error `t`, the trace continues right after the throwing call with
exactly: log `t.what()` as an error, send the notification, call `Save`, call
`execl`; `Save` and `execl` each occur once in the whole trace. If `execl`
replaces the image nothing follows; if it returns -1 the replacement-failure
message is logged and written to the error stream and `main` returns
`EXIT_FAILURE`. -/
theorem generic_error_runs_recovery (c : Config) (a : Argv) (w : World) (t : Thrown)
    (hv : versionRequested a = false) (hd : w.display = true) (hg : t.generic)
    (hf : LoadRaises w t ∨ RunRaises w t) :
    ∃ pre tail,
      trace c a w =
        pre ++
          [.log .ERROR t.what,
           .notifySend "An error occurred. Recovering..." .NOTIFY_SEND_CRITICAL,
           .save,
           .execl a.prog [a.prog]] ++ tail ∧
      (LoadRaises w t → pre.getLast? = some .load) ∧
      (RunRaises w t → pre.getLast? = some .run) ∧
      (trace c a w).count .save = 1 ∧
      (trace c a w).countP Effect.isExecl = 1 ∧
      (w.execl = .replaced → tail = [] ∧ result c a w = .replaced a.prog [a.prog]) ∧
      (∀ e, w.execl = .failed e →
        w.execl.ret = some (-1) ∧
        tail = [.log .ERROR ("execl() failed" ++ ": " ++ e),
                .stderr ("execl() failed" ++ ": " ++ e ++ "\n")] ∧
        result c a w = .exited EXIT_FAILURE) := by
  obtain ⟨s, rfl⟩ := (generic_iff t).1 hg
  have hc : caught a w = some (.stdException s) := (caught_iff a w _).2 ⟨hv, hd, hf⟩
  have hm := main_of_caught c a w _ hc
  rw [handlers_generic] at hm
  rcases hf with hf | hf
  · have ht := tryBlock_of_loadRaises w _ hf
    have hnr : ¬ RunRaises w (.stdException s) := by
      intro hr
      have := hr.1 hf.1
      rw [hf.2] at this
      cases this
    cases he : w.execl with
    | replaced =>
      refine ⟨startup a w ++ [.fileExists true, .load], [], ?_⟩
      simp [trace, result, hm, ht, he, hf, hnr, recovery, startup, Thrown.what,
        Effect.isExecl, List.count_cons]
    | failed e =>
      refine ⟨startup a w ++ [.fileExists true, .load],
        [.log .ERROR ("execl() failed" ++ ": " ++ e),
         .stderr ("execl() failed" ++ ": " ++ e ++ "\n")], ?_⟩
      simp [trace, result, hm, ht, he, hf, hnr, recovery, startup, Thrown.what,
        Effect.isExecl, List.count_cons, ExeclOutcome.ret]
  · have ht := tryBlock_of_runRaises w _ hf
    have hnl : ¬ LoadRaises w (.stdException s) := by
      intro hl
      have := hf.1 hl.1
      rw [hl.2] at this
      cases this
    cases he : w.execl with
    | replaced =>
      refine ⟨startup a w ++ (tryBlock w).1, [], ?_⟩
      cases hx : FileExists w <;>
        simp [trace, result, hm, ht, he, hf, hnl, hx, recovery, startup, Thrown.what,
          Effect.isExecl, List.count_cons]
    | failed e =>
      refine ⟨startup a w ++ (tryBlock w).1,
        [.log .ERROR ("execl() failed" ++ ": " ++ e),
         .stderr ("execl() failed" ++ ": " ++ e ++ "\n")], ?_⟩
      cases hx : FileExists w <;>
        simp [trace, result, hm, ht, he, hf, hnl, hx, recovery, startup, Thrown.what,
          Effect.isExecl, List.count_cons, ExeclOutcome.ret]

/-- C1 witness: a snapshot exists, `Load` throws a generic error X and `execl`
fails with E. -/
theorem generic_error_runs_recovery_witness :
    ∃ pre tail,
      trace sampleConfig wmOnly loadFailsWorld =
        pre ++
          [.log .ERROR (Thrown.stdException "X").what,
           .notifySend "An error occurred. Recovering..." .NOTIFY_SEND_CRITICAL,
           .save,
           .execl wmOnly.prog [wmOnly.prog]] ++ tail ∧
      (LoadRaises loadFailsWorld (.stdException "X") → pre.getLast? = some .load) ∧
      (RunRaises loadFailsWorld (.stdException "X") → pre.getLast? = some .run) ∧
      (trace sampleConfig wmOnly loadFailsWorld).count .save = 1 ∧
      (trace sampleConfig wmOnly loadFailsWorld).countP Effect.isExecl = 1 ∧
      (loadFailsWorld.execl = .replaced →
        tail = [] ∧
        result sampleConfig wmOnly loadFailsWorld = .replaced wmOnly.prog [wmOnly.prog]) ∧
      (∀ e, loadFailsWorld.execl = .failed e →
        loadFailsWorld.execl.ret = some (-1) ∧
        tail = [.log .ERROR ("execl() failed" ++ ": " ++ e),
                .stderr ("execl() failed" ++ ": " ++ e ++ "\n")] ∧
        result sampleConfig wmOnly loadFailsWorld = .exited EXIT_FAILURE) :=
  generic_error_runs_recovery sampleConfig wmOnly loadFailsWorld (.stdException "X")
    (by decide) rfl (by decide) (Or.inl (by decide))

/-- C2 as stated fails: started as `wm --foo`, when `Run` throws a generic
error the image is replaced with the argument vector `wm` alone, which is not
the vector the process was started with. -/
theorem execl_drops_arguments_counterexample :
    caught wmWithArg runFailsWorld = some (.stdException "X") ∧
    trace sampleConfig wmWithArg runFailsWorld =
      [.installHandler, .initLogging "wm", .getInstance true, .fileExists false, .run,
       .log .ERROR "X",
       .notifySend "An error occurred. Recovering..." .NOTIFY_SEND_CRITICAL,
       .save, .execl "wm" ["wm"]] ∧
    result sampleConfig wmWithArg runFailsWorld = .replaced "wm" ["wm"] ∧
    wmWithArg.toList = ["wm", "--foo"] ∧
    ["wm"] ≠ wmWithArg.toList := by
  decide

/-- C2 amended: on the recovery path `execl` is called with the program path
`args[0]` and the argument vector consisting of `args[0]` alone; every `execl`
in the trace has that form and so has the replacement image. The vector
equals the one the process was started with exactly when `argc` is 1. -/
theorem execl_passes_program_name_only (c : Config) (a : Argv) (w : World) (t : Thrown)
    (hc : caught a w = some t) (hg : t.generic) :
    Effect.execl a.prog [a.prog] ∈ trace c a w ∧
    (∀ p av, Effect.execl p av ∈ trace c a w → p = a.prog ∧ av = [a.prog]) ∧
    (∀ p av, result c a w = .replaced p av → p = a.prog ∧ av = [a.prog]) ∧
    ([a.prog] = a.toList ↔ a.argc = 1) := by
  obtain ⟨s, rfl⟩ := (generic_iff t).1 hg
  have hm := main_of_caught c a w _ hc
  rw [handlers_generic] at hm
  obtain ⟨hv, hd, hf⟩ := (caught_iff a w _).1 hc
  have hargs : ([a.prog] = a.toList ↔ a.argc = 1) := by
    cases hr : a.rest <;> simp [Argv.toList, Argv.argc, hr]
  refine ⟨?_, ?_, ?_, hargs⟩
  · cases he : w.execl <;> simp [trace, hm, he, recovery]
  · intro p av
    rcases hf with hf | hf
    · cases he : w.execl <;>
        simp [trace, hm, he, recovery, startup, tryBlock_of_loadRaises w _ hf]
    · cases he : w.execl <;> cases hx : FileExists w <;>
        simp [trace, hm, he, hx, recovery, startup, tryBlock_of_runRaises w _ hf]
  · intro p av
    cases he : w.execl <;> simp [result, hm, he]
    intro h1 h2
    exact ⟨h1.symm, h2.symm⟩

/-- C2 amended, witness: started as `wm --foo`. -/
theorem execl_passes_program_name_only_witness :
    Effect.execl "wm" ["wm"] ∈ trace sampleConfig wmWithArg runFailsWorld :=
  (execl_passes_program_name_only sampleConfig wmWithArg runFailsWorld (.stdException "X")
    (by decide) (by decide)).1

/-! ## A snapshot that fails to load (C3) -/

theorem handlers_snapshotLoadError (a : Argv) (w : World) (s : String) :
    handlers a w (.snapshotLoadError s) =
      ([.log .ERROR s, .stderr (s ++ "\n"),
        .rename w.filename (w.filename ++ ".failed_to_load")],
       .exited EXIT_FAILURE) := by
  simp [handlers, Thrown.isA, Thrown.what, endl]

theorem rename_moved (old new : String) (files : List String)
    (hne : new ≠ old) (h : old ∈ files) :
    old ∉ (rename .moved old new files).2 ∧ new ∈ (rename .moved old new files).2 := by
  simp [rename, h, Ne.symm hne]

theorem rename_not_moved (o : RenameOutcome) (old new : String) (files : List String)
    (ho : o ≠ .moved) : (rename o old new files).2 = files := by
  unfold rename
  split
  · cases o with
    | moved => exact absurd rfl ho
    | sameFile => rfl
    | failed e => rfl
  · rfl

/-- C3 as stated fails: the snapshot `snap` exists, `Load` throws a
`SnapshotLoadError`, `main` calls `rename` and returns `EXIT_FAILURE`, but the
call fails (the target is a directory) and the original filename still exists
after the run. -/
theorem rename_failure_keeps_snapshot_counterexample :
    FileExists renameFailsWorld = true ∧
    renameFailsWorld.load = .raises (.snapshotLoadError "bad") ∧
    trace sampleConfig wmOnly renameFailsWorld =
      [.installHandler, .initLogging "wm", .getInstance true, .fileExists true, .load,
       .log .ERROR "bad", .stderr "bad\n", .rename "snap" "snap.failed_to_load"] ∧
    result sampleConfig wmOnly renameFailsWorld = .exited EXIT_FAILURE ∧
    (rename renameFailsWorld.rename "snap" "snap.failed_to_load" renameFailsWorld.files).1 = -1 ∧
    filesAfter renameFailsWorld (trace sampleConfig wmOnly renameFailsWorld)
        renameFailsWorld.files = ["snap", "snap.failed_to_load"] ∧
    "snap" ∈ filesAfter renameFailsWorld (trace sampleConfig wmOnly renameFailsWorld)
        renameFailsWorld.files := by
  decide

/-- C3 amended: when the snapshot file exists and `Load` throws a
`SnapshotLoadError`, `main` logs the error text, writes it to the error
stream, calls `rename` once, from `filename()` to `filename()` followed by
`.failed_to_load`, and returns `EXIT_FAILURE` whatever that call returns;
`Save`, `NotifySend`, `execl` and `Run` are not called. The files after the run
are those the one `rename` call leaves: when it moves the entry the original
filename no longer exists and the new one does; when it does not (it fails, or
both names already are the same file) the files are unchanged and the original
filename still exists. -/
theorem snapshot_load_error_renames_and_fails (c : Config) (a : Argv) (w : World)
    (t : Thrown) (hv : versionRequested a = false) (hd : w.display = true)
    (hx : w.filename ∈ w.files) (hl : w.load = .raises t)
    (ht : t.isA .SnapshotLoadError = true) :
    trace c a w =
      [.installHandler, .initLogging a.prog, .getInstance true,
       .fileExists true, .load,
       .log .ERROR t.what, .stderr (t.what ++ "\n"),
       .rename w.filename (w.filename ++ ".failed_to_load")] ∧
    result c a w = .exited EXIT_FAILURE ∧
    (trace c a w).countP Effect.isRename = 1 ∧
    filesAfter w (trace c a w) w.files =
      (rename w.rename w.filename (w.filename ++ ".failed_to_load") w.files).2 ∧
    (w.rename = .moved →
      w.filename ∉ filesAfter w (trace c a w) w.files ∧
      (w.filename ++ ".failed_to_load") ∈ filesAfter w (trace c a w) w.files) ∧
    (w.rename ≠ .moved →
      filesAfter w (trace c a w) w.files = w.files ∧
      w.filename ∈ filesAfter w (trace c a w) w.files) ∧
    Effect.save ∉ trace c a w ∧
    Effect.run ∉ trace c a w ∧
    (∀ e ∈ trace c a w, e.isNotify = false ∧ e.isExecl = false) := by
  obtain ⟨s, rfl⟩ := (snapshotLoadError_iff t).1 ht
  have hf : LoadRaises w (.snapshotLoadError s) := ⟨by simp [FileExists, hx], hl⟩
  have hc : caught a w = some (.snapshotLoadError s) := (caught_iff a w _).2 ⟨hv, hd, Or.inl hf⟩
  have hm := main_of_caught c a w _ hc
  rw [handlers_snapshotLoadError, tryBlock_of_loadRaises w _ hf] at hm
  have htr : trace c a w =
      [.installHandler, .initLogging a.prog, .getInstance true,
       .fileExists true, .load,
       .log .ERROR s, .stderr (s ++ "\n"),
       .rename w.filename (w.filename ++ ".failed_to_load")] := by
    simp [trace, hm, startup, hd]
  have hfa : filesAfter w (trace c a w) w.files =
      (rename w.rename w.filename (w.filename ++ ".failed_to_load") w.files).2 := by
    rw [htr]; simp [filesAfter]
  refine ⟨by simpa [Thrown.what] using htr, by simp [result, hm], ?_, hfa, ?_, ?_, ?_, ?_, ?_⟩
  · simp [htr, Effect.isRename]
  · intro ho
    rw [hfa, ho]
    exact rename_moved w.filename (w.filename ++ ".failed_to_load") w.files
      (failed_suffix_ne w.filename) hx
  · intro ho
    rw [hfa, rename_not_moved _ _ _ _ ho]
    exact ⟨rfl, hx⟩
  · simp [htr]
  · simp [htr]
  · simp [htr, Effect.isNotify, Effect.isExecl]

/-- C3 amended, witness: the snapshot `snap` is on disk next to another file
and the rename moves it. -/
theorem snapshot_load_error_renames_and_fails_witness :
    filesAfter corruptSnapshotWorld (trace sampleConfig wmOnly corruptSnapshotWorld)
        corruptSnapshotWorld.files = ["snap.failed_to_load", "other"] ∧
    (corruptSnapshotWorld.rename = .moved →
      corruptSnapshotWorld.filename ∉ filesAfter corruptSnapshotWorld
        (trace sampleConfig wmOnly corruptSnapshotWorld) corruptSnapshotWorld.files ∧
      (corruptSnapshotWorld.filename ++ ".failed_to_load") ∈ filesAfter corruptSnapshotWorld
        (trace sampleConfig wmOnly corruptSnapshotWorld) corruptSnapshotWorld.files) :=
  ⟨by decide,
   (snapshot_load_error_renames_and_fails sampleConfig wmOnly corruptSnapshotWorld
    (.snapshotLoadError "bad") (by decide) rfl (by decide) rfl rfl).2.2.2.2.1⟩

/-! ## Which paths save, notify and re-execute (C4) -/

theorem handlers_badAlloc (a : Argv) (w : World) (s : String) :
    handlers a w (.badAlloc s) = ([.stderr "Out of memory\n"], .exited EXIT_FAILURE) := by
  simp [handlers, Thrown.isA]

theorem handlers_foreign (a : Argv) (w : World) :
    handlers a w .foreign =
      ([.log .ERROR "Unknown exception caught!"], .exited EXIT_FAILURE) := by
  simp [handlers, Thrown.isA]

theorem tryBlock_effects (w : World) :
    ∀ e ∈ (tryBlock w).1, e ≠ .save ∧ e.isNotify = false ∧ e.isExecl = false ∧
      e.isRename = false ∧ e.isLog = false ∧ e.isStderr = false := by
  unfold tryBlock
  cases FileExists w <;> cases w.load <;> cases w.run <;>
    simp [Effect.isNotify, Effect.isExecl, Effect.isRename, Effect.isLog, Effect.isStderr]

theorem startup_effects (a : Argv) (w : World) :
    ∀ e ∈ startup a w, e ≠ .save ∧ e.isNotify = false ∧ e.isExecl = false ∧
      e.isRename = false ∧ e.isLog = false ∧ e.isStderr = false ∧ e ≠ .run ∧ e ≠ .load := by
  simp [startup, Effect.isNotify, Effect.isExecl, Effect.isRename, Effect.isLog,
    Effect.isStderr]

theorem main_of_caught_none (c : Config) (a : Argv) (w : World) (h : caught a w = none) :
    ∀ e ∈ trace c a w, e ≠ .save ∧ e.isNotify = false ∧ e.isExecl = false := by
  unfold caught at h
  cases hv : versionRequested a
  · cases hd : w.display
    · simp [trace, main, hv, hd, startup, Effect.isNotify, Effect.isExecl]
    · simp only [hv, hd, Bool.false_eq_true, if_false, Bool.not_true] at h
      have hb := tryBlock_effects w
      have hs := startup_effects a w
      have hm : trace c a w = startup a w ++ (tryBlock w).1 := by
        rcases hp : tryBlock w with ⟨body, o⟩
        rw [hp] at h
        simp only at h
        subst h
        simp [trace, main, hv, hd, hp, startup]
      intro e he
      rw [hm, List.mem_append] at he
      rcases he with he | he
      · exact ⟨(hs e he).1, (hs e he).2.1, (hs e he).2.2.1⟩
      · exact ⟨(hb e he).1, (hb e he).2.1, (hb e he).2.2.1⟩
  · simp [trace, main, hv, Effect.isNotify, Effect.isExecl]

/-- C4: in a run where the caught fault is a `std::bad_alloc`, a
`SnapshotLoadError` or an object that is not a `std::exception`, none of
`Save`, `NotifySend` and `execl` occurs and `main` returns `EXIT_FAILURE`; and
in any run where one of `Save`, `NotifySend`, `execl` occurs, the caught fault
is a generic recoverable error. -/
theorem save_notify_execl_only_on_recovery (c : Config) (a : Argv) (w : World) :
    (∀ t, caught a w = some t →
      (t.isA .bad_alloc = true ∨ t.isA .SnapshotLoadError = true ∨ t.isA .exception = false) →
      (∀ e ∈ trace c a w, e ≠ .save ∧ e.isNotify = false ∧ e.isExecl = false) ∧
      result c a w = .exited EXIT_FAILURE) ∧
    ((∃ e ∈ trace c a w, e = .save ∨ e.isNotify = true ∨ e.isExecl = true) →
      ∃ t, caught a w = some t ∧ t.generic) := by
  have key : ∀ t, caught a w = some t →
      (t.isA .bad_alloc = true ∨ t.isA .SnapshotLoadError = true ∨ t.isA .exception = false) →
      (∀ e ∈ trace c a w, e ≠ .save ∧ e.isNotify = false ∧ e.isExecl = false) ∧
      result c a w = .exited EXIT_FAILURE := by
    intro t hc hn
    have hm := main_of_caught c a w t hc
    have hb := tryBlock_effects w
    have hs := startup_effects a w
    have hh : (∀ e ∈ (handlers a w t).1, e ≠ .save ∧ e.isNotify = false ∧ e.isExecl = false) ∧
        (handlers a w t).2 = .exited EXIT_FAILURE := by
      cases t with
      | badAlloc s => simp [handlers_badAlloc, Effect.isNotify, Effect.isExecl]
      | snapshotLoadError s =>
        simp [handlers_snapshotLoadError, Effect.isNotify, Effect.isExecl]
      | stdException s => simp [Thrown.isA] at hn
      | foreign => simp [handlers_foreign, Effect.isNotify, Effect.isExecl]
    refine ⟨?_, by simp [result, hm, hh.2]⟩
    intro e he
    simp only [trace, hm, List.mem_append] at he
    rcases he with (he | he) | he
    · exact ⟨(hs e he).1, (hs e he).2.1, (hs e he).2.2.1⟩
    · exact ⟨(hb e he).1, (hb e he).2.1, (hb e he).2.2.1⟩
    · exact hh.1 e he
  refine ⟨key, ?_⟩
  rintro ⟨e, he, hp⟩
  cases hc : caught a w with
  | none =>
    have := main_of_caught_none c a w hc e he
    rcases hp with hp | hp | hp
    · exact absurd hp this.1
    · rw [this.2.1] at hp; cases hp
    · rw [this.2.2] at hp; cases hp
  | some t =>
    refine ⟨t, rfl, ?_⟩
    by_contra hg
    have hn : t.isA .bad_alloc = true ∨ t.isA .SnapshotLoadError = true ∨
        t.isA .exception = false := by
      cases t <;> simp [Thrown.generic, Thrown.isA] at hg ⊢
    have := (key t hc hn).1 e he
    rcases hp with hp | hp | hp
    · exact absurd hp this.1
    · rw [this.2.1] at hp; cases hp
    · rw [this.2.2] at hp; cases hp

/-- C4 witness: `Run` throws `std::bad_alloc`, which is also a
`std::exception`; and in the run where `Run` throws a generic error `Save`
occurs. -/
theorem save_notify_execl_only_on_recovery_witness :
    (Thrown.badAlloc "std::bad_alloc").isA .exception = true ∧
    ((∀ e ∈ trace sampleConfig wmOnly outOfMemoryWorld,
        e ≠ .save ∧ e.isNotify = false ∧ e.isExecl = false) ∧
      result sampleConfig wmOnly outOfMemoryWorld = .exited EXIT_FAILURE) ∧
    ∃ t, caught wmOnly runFailsWorld = some t ∧ t.generic :=
  ⟨rfl,
   (save_notify_execl_only_on_recovery sampleConfig wmOnly outOfMemoryWorld).1
     (.badAlloc "std::bad_alloc") (by decide) (Or.inl rfl),
   (save_notify_execl_only_on_recovery sampleConfig wmOnly runFailsWorld).2
     ⟨.save, by decide, Or.inl rfl⟩⟩

/-! ## Restore, then run (C6) -/

theorem try_block_then_handlers (c : Config) (a : Argv) (w : World)
    (hv : versionRequested a = false) (hd : w.display = true) :
    ∃ post, trace c a w = startup a w ++ (tryBlock w).1 ++ post ∧
      ∀ e ∈ post, e ≠ .load ∧ e ≠ .run := by
  cases hc : caught a w with
  | none =>
    refine ⟨[], ?_, by simp⟩
    unfold caught at hc
    simp only [hv, hd, Bool.false_eq_true, if_false, Bool.not_true] at hc
    rcases hp : tryBlock w with ⟨body, o⟩
    rw [hp] at hc
    simp only at hc
    subst hc
    simp [trace, main, hv, hd, hp, startup]
  | some t =>
    refine ⟨(handlers a w t).1, by simp [trace, main_of_caught c a w t hc], ?_⟩
    cases t with
    | badAlloc s => simp [handlers_badAlloc]
    | snapshotLoadError s => simp [handlers_snapshotLoadError]
    | stdException s =>
      rw [handlers_generic]
      cases w.execl <;> simp [recovery]
    | foreign => simp [handlers_foreign]

/-- C6: in a run where the display is acquired, `FileExists` is asked once and
`Load` is called if and only if it answers true; when `Load` is called its
call comes before any call of `Run`; and when `Load` returns normally or no
snapshot exists, `Run` is the very next call and no `Save` or `rename` (and no
earlier `Run`) occurs before it. -/
theorem load_iff_exists_then_run (c : Config) (a : Argv) (w : World)
    (hv : versionRequested a = false) (hd : w.display = true) :
    Effect.fileExists (FileExists w) ∈ trace c a w ∧
    (Effect.load ∈ trace c a w ↔ FileExists w = true) ∧
    (Effect.load ∈ trace c a w →
      ∃ pre rest, trace c a w = pre ++ .load :: rest ∧ Effect.run ∉ pre ∧ Effect.load ∉ rest) ∧
    ((FileExists w = false ∨ w.load = .returns) →
      ∃ pre post, trace c a w = pre ++ .run :: post ∧
        pre.getLast? = some (if FileExists w then .load else .fileExists false) ∧
        ∀ e ∈ pre, e ≠ .save ∧ e.isRename = false ∧ e ≠ .run) := by
  obtain ⟨post, hm, hpost⟩ := try_block_then_handlers c a w hv hd
  have hl : Effect.load ∉ post := fun h => (hpost _ h).1 rfl
  have hr : Effect.run ∉ post := fun h => (hpost _ h).2 rfl
  refine ⟨?_, ?_, ?_, ?_⟩
  · rw [hm]
    unfold tryBlock
    cases hx : FileExists w <;> cases w.load <;> cases w.run <;> simp [startup]
  · rw [hm]
    unfold tryBlock
    cases hx : FileExists w <;> cases w.load <;> cases w.run <;> simp [startup, hl]
  · intro hmem
    have hx : FileExists w = true := by
      revert hmem
      rw [hm]
      unfold tryBlock
      cases hx : FileExists w <;> cases w.load <;> cases w.run <;> simp [startup, hl]
    refine ⟨startup a w ++ [.fileExists true], (tryBlock w).1.drop 2 ++ post, ?_, ?_, ?_⟩
    · rw [hm]
      unfold tryBlock
      cases w.load <;> cases w.run <;> simp [hx]
    · simp [startup]
    · unfold tryBlock
      cases w.load <;> cases w.run <;> simp [hx, hl]
  · intro h
    cases hx : FileExists w
    · refine ⟨startup a w ++ [.fileExists false], post, ?_, ?_, ?_⟩
      · rw [hm]
        unfold tryBlock
        cases w.run <;> simp [hx]
      · simp
      · simp [startup, Effect.isRename]
    · have hlr : w.load = .returns := by
        rcases h with h | h
        · rw [hx] at h; cases h
        · exact h
      refine ⟨startup a w ++ [.fileExists true, .load], post, ?_, ?_, ?_⟩
      · rw [hm]
        unfold tryBlock
        cases w.run <;> simp [hx, hlr]
      · simp
      · simp [startup, Effect.isRename]

/-- C6 witness: the snapshot is on disk, loads, and `Run` then throws. -/
theorem load_iff_exists_then_run_witness :
    Effect.load ∈ trace sampleConfig wmOnly
        ⟨true, "snap", ["snap"], .returns, .raises .foreign, .replaced, .moved⟩ ↔
      FileExists ⟨true, "snap", ["snap"], .returns, .raises .foreign, .replaced, .moved⟩ = true :=
  (load_iff_exists_then_run sampleConfig wmOnly
    ⟨true, "snap", ["snap"], .returns, .raises .foreign, .replaced, .moved⟩ (by decide) rfl).2.1

/-! ## Exit codes (C7) -/

theorem caught_none_iff (a : Argv) (w : World) :
    caught a w = none ↔
      versionRequested a = true ∨ w.display = false ∨
        ((FileExists w = true → w.load = .returns) ∧ w.run = .returns) := by
  unfold caught tryBlock
  cases hv : versionRequested a <;> cases hd : w.display <;>
    cases hf : FileExists w <;> cases hl : w.load <;> cases hr : w.run <;> simp

theorem result_of_caught_none (c : Config) (a : Argv) (w : World) (h : caught a w = none) :
    result c a w = .exited (if versionRequested a || w.display then 0 else 1) := by
  unfold caught at h
  cases hv : versionRequested a
  · cases hd : w.display
    · simp [result, main, hv, hd, EXIT_FAILURE]
    · simp only [hv, hd, Bool.false_eq_true, if_false, Bool.not_true] at h
      rcases hp : tryBlock w with ⟨body, o⟩
      rw [hp] at h
      simp only at h
      subst h
      simp [result, main, hv, hd, hp, EXIT_SUCCESS]
  · simp [result, main, hv, EXIT_SUCCESS]

theorem result_of_caught (c : Config) (a : Argv) (w : World) (t : Thrown)
    (h : caught a w = some t) :
    result c a w = .exited 1 ∨
      (t.generic ∧ w.execl = .replaced ∧ result c a w = .replaced a.prog [a.prog]) := by
  have hm := main_of_caught c a w t h
  cases t with
  | badAlloc s => left; simp [result, hm, handlers_badAlloc, EXIT_FAILURE]
  | snapshotLoadError s => left; simp [result, hm, handlers_snapshotLoadError, EXIT_FAILURE]
  | stdException s =>
    rw [handlers_generic] at hm
    cases he : w.execl with
    | replaced => right; simp [result, hm, he, Thrown.generic, Thrown.isA]
    | failed e => left; simp [result, hm, he, EXIT_FAILURE]
  | foreign => left; simp [result, hm, handlers_foreign, EXIT_FAILURE]

/-- C7: in a run where `main` returns with status `code` (the process image
was not replaced), `code` is 0 if and only if the version flag was given, or
the display was acquired and the snapshot load (if any) and `Run` both returned
without throwing; and `code` is nonzero when the display is not acquired, when
the caught fault is a `std::bad_alloc`, a `SnapshotLoadError` or an object that
is not a `std::exception`, and when the caught fault is generic and `execl`
fails. -/
theorem exit_code_zero_iff_success (c : Config) (a : Argv) (w : World) (code : Int)
    (h : result c a w = .exited code) :
    (code = 0 ↔
      versionRequested a = true ∨
        (w.display = true ∧ (FileExists w = true → w.load = .returns) ∧ w.run = .returns)) ∧
    (versionRequested a = false → w.display = false → code ≠ 0) ∧
    (∀ t, caught a w = some t → t.isA .bad_alloc = true → code ≠ 0) ∧
    (∀ t, caught a w = some t → t.isA .SnapshotLoadError = true → code ≠ 0) ∧
    (∀ t, caught a w = some t → t.isA .exception = false → code ≠ 0) ∧
    (∀ t e, caught a w = some t → t.generic → w.execl = .failed e → code ≠ 0) := by
  have hsome : ∀ t, caught a w = some t → code = 1 := by
    intro t hc
    rcases result_of_caught c a w t hc with hr | ⟨_, _, hr⟩
    · rw [hr] at h
      exact (Result.exited.inj h).symm
    · rw [hr] at h
      cases h
  refine ⟨?_, ?_, ?_, ?_, ?_, ?_⟩
  · cases hc : caught a w with
    | none =>
      have hr := result_of_caught_none c a w hc
      rw [hr] at h
      have hcode := (Result.exited.inj h).symm
      have hn := (caught_none_iff a w).1 hc
      cases hv : versionRequested a <;> cases hd : w.display <;>
        simp only [hv, hd, Bool.or_false, Bool.or_true, Bool.false_eq_true, if_true, if_false,
          false_or, true_or, false_and, true_and, iff_true, iff_false, or_false] at hcode hn ⊢
      · omega
      · refine ⟨fun _ => ?_, fun _ => hcode⟩
        rcases hn with hn | hn
        · cases hn
        · exact hn
      · exact hcode
      · exact hcode
    | some t =>
      have h1 := hsome t hc
      obtain ⟨hv, hd, hf⟩ := (caught_iff a w t).1 hc
      subst h1
      simp only [one_ne_zero, false_iff, hv, hd, Bool.false_eq_true, false_or, true_and]
      rintro ⟨hl, hr⟩
      rcases hf with hf | hf
      · have := hl hf.1
        rw [hf.2] at this
        cases this
      · rw [hf.2] at hr
        cases hr
  · intro hv hd
    have hc : caught a w = none := (caught_none_iff a w).2 (Or.inr (Or.inl hd))
    have hr := result_of_caught_none c a w hc
    rw [hr] at h
    have hcode := (Result.exited.inj h).symm
    simp [hv, hd] at hcode
    simp [hcode]
  · intro t hc _
    simp [hsome t hc]
  · intro t hc _
    simp [hsome t hc]
  · intro t hc _
    simp [hsome t hc]
  · intro t e hc _ _
    simp [hsome t hc]

/-- C7 witness: a clean run returns 0. -/
theorem exit_code_zero_iff_success_witness :
    result sampleConfig wmOnly cleanRunWorld = .exited 0 ∧
    ((0 : Int) = 0 ↔
      versionRequested wmOnly = true ∨
        (cleanRunWorld.display = true ∧
          (FileExists cleanRunWorld = true → cleanRunWorld.load = .returns) ∧
          cleanRunWorld.run = .returns)) :=
  ⟨by decide,
   (exit_code_zero_iff_success sampleConfig wmOnly cleanRunWorld 0 (by decide)).1⟩

/-! ## Messages on the terminal failure paths (C8) -/

/-- C8 as stated fails: when `Run` throws `std::bad_alloc` the run ends with
`EXIT_FAILURE` and nothing is written to the log, and when `Run` throws an
object that is not a `std::exception` the run ends with `EXIT_FAILURE` and
nothing is written to the error stream. -/
theorem terminal_message_counterexample :
    (trace sampleConfig wmOnly outOfMemoryWorld =
        [.installHandler, .initLogging "wm", .getInstance true, .fileExists false, .run,
         .stderr "Out of memory\n"] ∧
      result sampleConfig wmOnly outOfMemoryWorld = .exited EXIT_FAILURE ∧
      (trace sampleConfig wmOnly outOfMemoryWorld).any Effect.isLog = false) ∧
    (trace sampleConfig wmOnly unknownFaultWorld =
        [.installHandler, .initLogging "wm", .getInstance true, .fileExists false, .run,
         .log .ERROR "Unknown exception caught!"] ∧
      result sampleConfig wmOnly unknownFaultWorld = .exited EXIT_FAILURE ∧
      (trace sampleConfig wmOnly unknownFaultWorld).any Effect.isStderr = false) := by
  decide

/-- C8 amended: every terminal failure path ends with `EXIT_FAILURE` after a
message. When the display is not acquired, when a `SnapshotLoadError` is
caught and when `execl` fails on the recovery path, the message is written to
the log and to the error stream. When a `std::bad_alloc` is caught the text
`Out of memory` is written to the error stream and nothing is logged. When an
object that is not a `std::exception` is caught the text
`Unknown exception caught!` is logged. -/
theorem terminal_paths_report (c : Config) (a : Argv) (w : World) :
    (versionRequested a = false → w.display = false →
      result c a w = .exited EXIT_FAILURE ∧
      Effect.log .INFO "Failed to open display to X server." ∈ trace c a w ∧
      Effect.stderr ("Failed to open display to X server." ++ "\n") ∈ trace c a w) ∧
    (∀ t, caught a w = some t →
      (t.isA .bad_alloc = true →
        result c a w = .exited EXIT_FAILURE ∧
        Effect.stderr "Out of memory\n" ∈ trace c a w ∧
        ∀ e ∈ trace c a w, e.isLog = false) ∧
      (t.isA .SnapshotLoadError = true →
        result c a w = .exited EXIT_FAILURE ∧
        Effect.log .ERROR t.what ∈ trace c a w ∧
        Effect.stderr (t.what ++ "\n") ∈ trace c a w) ∧
      (t.isA .exception = false →
        result c a w = .exited EXIT_FAILURE ∧
        Effect.log .ERROR "Unknown exception caught!" ∈ trace c a w) ∧
      (t.generic → ∀ e, w.execl = .failed e →
        result c a w = .exited EXIT_FAILURE ∧
        Effect.log .ERROR ("execl() failed" ++ ": " ++ e) ∈ trace c a w ∧
        Effect.stderr ("execl() failed" ++ ": " ++ e ++ "\n") ∈ trace c a w)) := by
  refine ⟨?_, ?_⟩
  · intro hv hd
    simp [trace, result, main, hv, hd, wm_start_failed_msg, endl]
  · intro t hc
    have hm := main_of_caught c a w t hc
    have hb := tryBlock_effects w
    have hs := startup_effects a w
    cases t with
    | badAlloc s =>
      rw [handlers_badAlloc] at hm
      refine ⟨fun _ => ⟨by simp [result, hm], by simp [trace, hm], ?_⟩,
        fun h => by simp [Thrown.isA] at h, fun h => by simp [Thrown.isA] at h,
        fun h => by simp [Thrown.generic, Thrown.isA] at h⟩
      intro e he
      simp only [trace, hm, List.mem_append, List.mem_singleton] at he
      rcases he with (he | he) | he
      · exact (hs e he).2.2.2.2.1
      · exact (hb e he).2.2.2.2.1
      · subst he; rfl
    | snapshotLoadError s =>
      rw [handlers_snapshotLoadError] at hm
      refine ⟨fun h => by simp [Thrown.isA] at h,
        fun _ => by simp [trace, result, hm, Thrown.what],
        fun h => by simp [Thrown.isA] at h,
        fun h => by simp [Thrown.generic, Thrown.isA] at h⟩
    | stdException s =>
      rw [handlers_generic] at hm
      refine ⟨fun h => by simp [Thrown.isA] at h, fun h => by simp [Thrown.isA] at h,
        fun h => by simp [Thrown.isA] at h, ?_⟩
      intro _ e he
      simp [trace, result, hm, he]
    | foreign =>
      rw [handlers_foreign] at hm
      refine ⟨fun h => by simp [Thrown.isA] at h, fun h => by simp [Thrown.isA] at h,
        fun _ => by simp [trace, result, hm],
        fun h => by simp [Thrown.generic, Thrown.isA] at h⟩

/-- C8 amended, witness: the failed replacement after a failed load, and the
out-of-memory run. -/
theorem terminal_paths_report_witness :
    (result sampleConfig wmOnly loadFailsWorld = .exited EXIT_FAILURE ∧
      Effect.log .ERROR ("execl() failed" ++ ": " ++ "E") ∈
        trace sampleConfig wmOnly loadFailsWorld ∧
      Effect.stderr ("execl() failed" ++ ": " ++ "E" ++ "\n") ∈
        trace sampleConfig wmOnly loadFailsWorld) ∧
    (result sampleConfig wmOnly outOfMemoryWorld = .exited EXIT_FAILURE ∧
      Effect.stderr "Out of memory\n" ∈ trace sampleConfig wmOnly outOfMemoryWorld ∧
      ∀ e ∈ trace sampleConfig wmOnly outOfMemoryWorld, e.isLog = false) :=
  ⟨((terminal_paths_report sampleConfig wmOnly loadFailsWorld).2
      (.stdException "X") (by decide)).2.2.2 (by decide) "E" rfl,
   ((terminal_paths_report sampleConfig wmOnly outOfMemoryWorld).2
      (.badAlloc "std::bad_alloc") (by decide)).1 rfl⟩

/-! ## The branch depends on the class of the fault only (C10) -/

theorem handlers_congr (a : Argv) (w w2 : World) (t : Thrown)
    (hf : w2.filename = w.filename) (he : w2.execl = w.execl) :
    handlers a w2 t = handlers a w t := by
  simp [handlers, hf, he]

/-- C10: in a run where the display is acquired, (1) when the snapshot file
exists and `Load` throws a generic error, `main` takes the recovery path: it
calls `Save` and `execl`, `Run` is never called and nothing is renamed; (2)
when `FileExists` answered false and `Run` throws a `SnapshotLoadError`, the
snapshot path is renamed to the same path followed by `.failed_to_load`
although `Load` was never called; (3) for any fault, a run in which `Load`
throws it and a run in which `Run` throws it end the same way and perform the
same effects after the throwing call. -/
theorem branch_depends_on_fault_class_only (c : Config) (a : Argv) (w : World) (t : Thrown)
    (hv : versionRequested a = false) (hd : w.display = true) :
    (LoadRaises w t → t.generic →
      Effect.save ∈ trace c a w ∧ Effect.execl a.prog [a.prog] ∈ trace c a w ∧
      Effect.run ∉ trace c a w ∧ ∀ e ∈ trace c a w, e.isRename = false) ∧
    (FileExists w = false → w.run = .raises t → t.isA .SnapshotLoadError = true →
      Effect.fileExists false ∈ trace c a w ∧
      Effect.rename w.filename (w.filename ++ ".failed_to_load") ∈ trace c a w ∧
      Effect.load ∉ trace c a w ∧
      result c a w = .exited EXIT_FAILURE) ∧
    (∀ w2 : World, w2.display = true → w2.filename = w.filename → w2.execl = w.execl →
      LoadRaises w t → RunRaises w2 t →
      result c a w2 = result c a w ∧
      ∃ pre pre2 suf,
        trace c a w = pre ++ .load :: suf ∧
        trace c a w2 = pre2 ++ .run :: suf ∧
        ∀ e ∈ suf, e ≠ .load ∧ e ≠ .run) := by
  refine ⟨?_, ?_, ?_⟩
  · intro hl hg
    obtain ⟨s, rfl⟩ := (generic_iff t).1 hg
    have hc : caught a w = some (.stdException s) := (caught_iff a w _).2 ⟨hv, hd, Or.inl hl⟩
    have hm := main_of_caught c a w _ hc
    rw [handlers_generic, tryBlock_of_loadRaises w _ hl] at hm
    cases he : w.execl <;>
      simp [trace, hm, he, recovery, startup, Effect.isRename]
  · intro hx hr ht
    obtain ⟨s, rfl⟩ := (snapshotLoadError_iff t).1 ht
    have hrr : RunRaises w (.snapshotLoadError s) := ⟨fun h => absurd (hx ▸ h) (by decide), hr⟩
    have hc : caught a w = some (.snapshotLoadError s) :=
      (caught_iff a w _).2 ⟨hv, hd, Or.inr hrr⟩
    have hm := main_of_caught c a w _ hc
    rw [handlers_snapshotLoadError, tryBlock_of_runRaises w _ hrr] at hm
    simp [trace, result, hm, hx, startup]
  · intro w2 hd2 hfn hex hl hr
    have hc : caught a w = some t := (caught_iff a w _).2 ⟨hv, hd, Or.inl hl⟩
    have hc2 : caught a w2 = some t := (caught_iff a w2 _).2 ⟨hv, hd2, Or.inr hr⟩
    have hm := main_of_caught c a w _ hc
    have hm2 := main_of_caught c a w2 _ hc2
    rw [handlers_congr a w w2 t hfn hex] at hm2
    rw [tryBlock_of_loadRaises w _ hl] at hm
    rw [tryBlock_of_runRaises w2 _ hr] at hm2
    refine ⟨by simp [result, hm, hm2], startup a w ++ [.fileExists true],
      startup a w2 ++ (if FileExists w2 then [.fileExists true, .load] else [.fileExists false]),
      (handlers a w t).1, by simp [trace, hm], ?_, ?_⟩
    · cases hx : FileExists w2 <;> simp [trace, hm2, hx]
    · cases t with
      | badAlloc s => simp [handlers_badAlloc]
      | snapshotLoadError s => simp [handlers_snapshotLoadError]
      | stdException s =>
        rw [handlers_generic]
        cases w.execl <;> simp [recovery]
      | foreign => simp [handlers_foreign]

/-- C10 witness: `Load` throws a generic error with a snapshot on disk. -/
theorem branch_depends_on_fault_class_only_witness :
    Effect.save ∈ trace sampleConfig wmOnly loadFailsWorld ∧
    Effect.execl wmOnly.prog [wmOnly.prog] ∈ trace sampleConfig wmOnly loadFailsWorld ∧
    Effect.run ∉ trace sampleConfig wmOnly loadFailsWorld ∧
    ∀ e ∈ trace sampleConfig wmOnly loadFailsWorld, e.isRename = false :=
  (branch_depends_on_fault_class_only sampleConfig wmOnly loadFailsWorld (.stdException "X")
    (by decide) rfl).1 (by decide) (by decide)

end Wmderland
